import Mathlib

/-!
Verification of the invite-code lifecycle of the throat admin backend.

The embedding follows the invitecodes view in app/views/admin.py: the
listing status derivation (map_style), code creation from the create
form, random code generation, and the bulk expiration update driven by
the update form.  Timestamps are modelled as natural numbers; the only
facts used about datetime values are order comparisons.  The InviteCode
model class itself (the peewee model with get_valid and
generate_random_code) is not part of the given sources, so the pieces
of the Store, Validator and Redeemer that live there are modelled from
the specification and marked as such in their doc comments.
-/

namespace Throat

/-- The InviteCode record, after app/models's InviteCode as described by
the data model section of the specification: a stable id, the secret
code string, the creating user, creation time, optional expiry time,
the use counter and the use cap.  Timestamps are naturals; uses and
max_uses are naturals, so usesCount is non-negative by type. -/
structure InviteCode where
  id : Nat
  code : String
  user : Nat
  created : Nat
  expires : Option Nat
  uses : Nat
  max_uses : Nat
deriving DecidableEq, Repr

/-- The style derivation of the invite-code listing, translated from
map_style in admin.py: a code whose uses reached max_uses is styled
"expired", a code whose expires field is set and strictly before the
current time is styled "expired", and every other code gets the empty
style. -/
def map_style (c : InviteCode) (now : Nat) : String :=
  if c.max_uses ≤ c.uses then "expired"
  else if (match c.expires with | some e => decide (e < now) | none => false) then "expired"
  else ""

/-- Modelled from the spec: the Validator predicate isValid of section
4.3 (the InviteCode model module carrying it is not among the given
sources): usesCount < maxUses and expiresAt is null or strictly after
now. -/
def isValid (c : InviteCode) (now : Nat) : Bool :=
  decide (c.uses < c.max_uses)
    && (match c.expires with | none => true | some e => decide (now < e))

/-- The fixed generation alphabet of admin.py: lowercase letters and
digits. -/
def code_alphabet : List Char := "abcdefghijklmnopqrstuvwxyz0123456789".toList

/-- Random code generation, translated from admin.py (and the model's
generate_random_code): 32 independent draws from the fixed alphabet,
joined into a string.  The random source is modelled as the function
giving the alphabet index drawn at each position. -/
def generate_code (choice : Nat → Fin code_alphabet.length) : String :=
  String.mk ((List.range 32).map (fun i => code_alphabet.get (choice i)))

/-- The data of the create-form of admin.py that the invitecodes view
reads: the optional requested code (empty string when the admin typed
nothing), the optional expiry and the use cap. -/
structure CreateInviteCodeForm where
  code : String
  expires : Option Nat
  uses : Nat
deriving DecidableEq, Repr

/-- The code stored by the create branch of the invitecodes view: the
admin-typed code when the field is truthy (non-empty), a freshly
generated code otherwise. -/
def chosen_code (form : CreateInviteCodeForm)
    (choice : Nat → Fin code_alphabet.length) : String :=
  if form.code ≠ "" then form.code else generate_code choice

/-- The typed store error of the specification error taxonomy that the
creation path can surface. -/
inductive StoreError where
  | DuplicateCode
deriving DecidableEq, Repr

/-- The fresh record built by InviteCode.create as invoked from the
create branch of the invitecodes view.  Modelled from the spec where
the model module is missing from the sources: the Store assigns the
stable id on creation (taken here as the store size) and usesCount
starts at 0. -/
def create_record (store : List InviteCode) (user : Nat) (code : String)
    (max_uses : Nat) (expires : Option Nat) (created : Nat) : InviteCode :=
  { id := store.length, code := code, user := user, created := created,
    expires := expires, uses := 0, max_uses := max_uses }

/-- Modelled from the spec: Store create of section 4.2 (the model
module is missing from the sources) fails with DuplicateCode when the
code already exists among the stored records, and otherwise appends the
fresh record. -/
def store_create (store : List InviteCode) (user : Nat) (code : String)
    (max_uses : Nat) (expires : Option Nat) (created : Nat) :
    Except StoreError (List InviteCode) :=
  if store.any (fun r => r.code = code) then Except.error StoreError.DuplicateCode
  else Except.ok (store ++ [create_record store user code max_uses expires created])

/-- The create branch of the invitecodes view, translated from
admin.py: take the typed code when non-empty, otherwise one freshly
generated code, and call InviteCode.create once with it.  The random
source is modelled as a stream of choice functions, of which the view
consumes only the first: cands n is the choice function the n-th
generation attempt would draw, and the view performs exactly one
attempt. -/
def handle_create_form (store : List InviteCode) (form : CreateInviteCodeForm)
    (cands : Nat → Nat → Fin code_alphabet.length) (user : Nat) (created : Nat) :
    Except StoreError (List InviteCode) :=
  store_create store user (chosen_code form (cands 0)) form.uses form.expires created

/-- The bulk expiration write, translated from the update statement of
the invitecodes view: every record whose id is in the targeted set gets
its expires field overwritten, every other record is untouched. -/
def update_expires (store : List InviteCode) (ids : List Nat)
    (expires : Option Nat) : List InviteCode :=
  store.map (fun r => if r.id ∈ ids then { r with expires := expires } else r)

/-- The single UPDATE statement issued by the bulk branch, as run by the
transactional persistence substrate of the specification: it either
applies in full or fails with no record written.  The tx_ok flag models
whether the substrate committed the statement. -/
def execute_update (store : List InviteCode) (ids : List Nat)
    (expires : Option Nat) (tx_ok : Bool) : Option (List InviteCode) :=
  if tx_ok then some (update_expires store ids expires) else none

/-- The descending (uses, created) order of the invite_codes listing
query of admin.py. -/
def code_order (a b : InviteCode) : Bool :=
  if a.uses = b.uses then decide (b.created ≤ a.created)
  else decide (b.uses ≤ a.uses)

/-- Insertion of a record into a list sorted by code_order. -/
def insert_ordered (a : InviteCode) : List InviteCode → List InviteCode
  | [] => [a]
  | b :: rest => if code_order a b then a :: b :: rest else b :: insert_ordered a rest

/-- The ORDER BY of the listing query as a deterministic sort by
code_order. -/
def sort_codes (store : List InviteCode) : List InviteCode :=
  store.foldr insert_ordered []

/-- The invite_codes listing fetched by the invitecodes view on every
request: all records ordered by uses descending then created
descending, paginated 50 to a page. -/
def invite_codes_listing (store : List InviteCode) (page : Nat) : List InviteCode :=
  ((sort_codes store).drop ((page - 1) * 50)).take 50

/-- The data of the update-form of admin.py: the expiration type
selector, the optional expiry timestamp, and the selected rows of the
codes field list, carried as the positional indices parsed from the
field ids (code.id.split("-")[1]). -/
structure UpdateInviteCodeForm where
  etype : String
  expires : Option Nat
  codes : List Nat
deriving DecidableEq, Repr

/-- The id resolution of the update branch: each submitted positional
index is looked up in the freshly fetched listing and its record id is
taken; an out-of-range index raises (modelled as none). -/
def resolve_ids (listing : List InviteCode) (indices : List Nat) :
    Option (List Nat) :=
  indices.mapM (fun i => (listing.get? i).map (fun r => r.id))

/-- The update branch of the invitecodes view, translated line by line
from admin.py: an "at" submission with no timestamp has its etype
rewritten to "never"; the target ids come from positional indices into
the listing fetched during this request; with no ids nothing happens;
otherwise "now" writes the current time, "never" (or a missing
update-form timestamp) writes null, and the remaining case writes the
expires field of the CREATE form (form.expires.data in the source, not
update_form.expires.data).  none models the request erroring out with
no write. -/
def handle_update_form (store : List InviteCode) (page : Nat)
    (uform : UpdateInviteCodeForm) (create_form_expires : Option Nat)
    (now : Nat) : Option (List InviteCode) :=
  let etype := if uform.etype = "at" ∧ uform.expires = none then "never" else uform.etype
  match resolve_ids (invite_codes_listing store page) uform.codes with
  | none => none
  | some ids =>
    if ids = [] then some store
    else
      let new_expires : Option Nat :=
        if etype = "now" then some now
        else if etype = "never" ∨ uform.expires = none then none
        else create_form_expires
      some (update_expires store ids new_expires)

/-- Modelled from the spec: the Redeemer of section 4.4 (not among the
given sources).  The record matching the presented code is incremented
by one use exactly when it is valid at the atomic check-and-write, so
the increment happens only while usesCount < maxUses. -/
def redeem_step (store : List InviteCode) (code : String) (now : Nat) :
    List InviteCode :=
  store.map (fun r =>
    if r.code = code ∧ isValid r now = true then { r with uses := r.uses + 1 } else r)

/-- The operations of the core that mutate the store: creation through
the create form path, redemption, and the bulk expiration update. -/
inductive Op where
  | create (user : Nat) (code : String) (max_uses : Nat) (expires : Option Nat) (created : Nat)
  | redeem (code : String) (now : Nat)
  | bulk (ids : List Nat) (expires : Option Nat)

/-- One operation applied to the store.  A creation refused as a
duplicate leaves the store unchanged. -/
def apply_op (store : List InviteCode) : Op → List InviteCode
  | Op.create user code max_uses expires created =>
      match store_create store user code max_uses expires created with
      | Except.ok s2 => s2
      | Except.error _ => store
  | Op.redeem code now => redeem_step store code now
  | Op.bulk ids expires => update_expires store ids expires

/-- The store states reachable from the empty store by the core's
operations. -/
inductive Reachable : List InviteCode → Prop where
  | init : Reachable []
  | next : ∀ s op, Reachable s → Reachable (apply_op s op)

/-- A constant random source always drawing the first alphabet letter. -/
def choice_a : Nat → Fin code_alphabet.length := fun _ => ⟨0, by decide⟩

/-- A constant random source always drawing the second alphabet letter. -/
def choice_b : Nat → Fin code_alphabet.length := fun _ => ⟨1, by decide⟩

/-- A store already holding the code the first generation attempt would
produce, while the code of the second attempt is free. -/
def colliding_store : List InviteCode :=
  [{ id := 0, code := generate_code choice_a, user := 0, created := 0,
     expires := none, uses := 0, max_uses := 1 }]

/-- A candidate stream whose first draw collides with colliding_store
and whose later draws do not. -/
def colliding_cands : Nat → Nat → Fin code_alphabet.length :=
  fun i => if i = 0 then choice_a else choice_b

/-- A create-form submission with the requested-code field left
empty. -/
def blank_code_form : CreateInviteCodeForm := { code := "", expires := none, uses := 1 }

theorem generate_code_length (choice : Nat → Fin code_alphabet.length) :
    (generate_code choice).length = 32 := by
  simp [generate_code, String.length]

theorem generate_code_mem (choice : Nat → Fin code_alphabet.length) :
    ∀ ch ∈ (generate_code choice).toList, ch ∈ code_alphabet := by
  intro ch hch
  simp only [generate_code, String.toList] at hch
  simp only [List.mem_map] at hch
  obtain ⟨i, _, rfl⟩ := hch
  exact List.get_mem code_alphabet (choice i).val (choice i).isLt

theorem generate_code_ne_empty (choice : Nat → Fin code_alphabet.length) :
    generate_code choice ≠ "" := by
  intro h
  have h32 := generate_code_length choice
  rw [h] at h32
  simp [String.length] at h32

/-- C9: every string the code generator can produce has length exactly
32 and all of its characters belong to the fixed lowercase-plus-digits
alphabet. -/
theorem generate_code_length_alphabet (choice : Nat → Fin code_alphabet.length) :
    (generate_code choice).length = 32 ∧
    (generate_code choice).toList.all (fun ch => decide (ch ∈ code_alphabet)) = true := by
  refine ⟨generate_code_length choice, ?_⟩
  rw [List.all_eq_true]
  intro ch hch
  simpa using generate_code_mem choice ch hch

/-- C10: a create submission whose requested code field is the empty
string stores a freshly generated 32-character code; the stored code is
never the empty string; and a successful creation appends exactly the
record carrying the chosen code. -/
theorem empty_requested_code_generates (store : List InviteCode)
    (form : CreateInviteCodeForm) (cands : Nat → Nat → Fin code_alphabet.length)
    (user created : Nat) :
    (form.code = "" → chosen_code form (cands 0) = generate_code (cands 0) ∧
      (chosen_code form (cands 0)).length = 32) ∧
    chosen_code form (cands 0) ≠ "" ∧
    (∀ s2, handle_create_form store form cands user created = Except.ok s2 →
      s2 = store ++
        [create_record store user (chosen_code form (cands 0)) form.uses form.expires created]) := by
  refine ⟨?_, ?_, ?_⟩
  · intro h
    have hc : chosen_code form (cands 0) = generate_code (cands 0) := by
      simp [chosen_code, h]
    exact ⟨hc, by rw [hc]; exact generate_code_length (cands 0)⟩
  · by_cases h : form.code = ""
    · have hc : chosen_code form (cands 0) = generate_code (cands 0) := by
        simp [chosen_code, h]
      rw [hc]
      exact generate_code_ne_empty (cands 0)
    · simp [chosen_code, h]
  · intro s2 h2
    by_cases hdup : store.any (fun r => r.code = chosen_code form (cands 0))
    · simp [handle_create_form, store_create, hdup] at h2
    · simp [handle_create_form, store_create, hdup] at h2
      exact h2.symm

theorem empty_requested_code_generates_app :
    chosen_code { code := "", expires := none, uses := 1 } choice_a =
      generate_code choice_a :=
  ((empty_requested_code_generates [] { code := "", expires := none, uses := 1 }
    (fun _ => choice_a) 5 6).1 rfl).1

/-- C3 counterexample: a record whose expiry equals the current instant
(expires = some 5 at now = 5, uses below cap) is invalid for the
Validator, yet the listing's style derivation leaves it unmarked: the
claimed at-most comparison and the claimed unusable marking fail at the
boundary. -/
theorem map_style_boundary_cex :
    isValid { id := 0, code := "x", user := 0, created := 0, expires := some 5,
              uses := 0, max_uses := 1 } 5 = false ∧
    map_style { id := 0, code := "x", user := 0, created := 0, expires := some 5,
                uses := 0, max_uses := 1 } 5 = "" ∧
    map_style { id := 0, code := "x", user := 0, created := 0, expires := some 5,
                uses := 0, max_uses := 1 } 5 ≠ "expired" := by
  decide

/-- C3 (amended): the listing styles a record expired exactly when its
uses reached the cap or its expiry is present and strictly before now;
isValid holds exactly when uses are below the cap and the expiry is
absent or strictly after now; consequently a record whose expiry equals
the current instant is invalid but is not marked unusable by the
listing. -/
theorem map_style_strict_boundary (c : InviteCode) (now : Nat) :
    (map_style c now = "expired" ↔
      (c.max_uses ≤ c.uses ∨ ∃ e, c.expires = some e ∧ e < now)) ∧
    (isValid c now = true ↔
      (c.uses < c.max_uses ∧ (c.expires = none ∨ ∃ e, c.expires = some e ∧ now < e))) ∧
    (c.expires = some now → c.uses < c.max_uses →
      isValid c now = false ∧ map_style c now = "") := by
  obtain ⟨id, code, user, created, expires, uses, max_uses⟩ := c
  cases expires with
  | none =>
    by_cases h : max_uses ≤ uses <;> simp [map_style, isValid, h]
  | some e =>
    by_cases h : max_uses ≤ uses <;> by_cases he : e < now <;>
      simp [map_style, isValid, h, he] <;> omega

theorem map_style_strict_boundary_app :
    isValid { id := 0, code := "x", user := 0, created := 0, expires := some 5,
              uses := 0, max_uses := 1 } 5 = false ∧
    map_style { id := 0, code := "x", user := 0, created := 0, expires := some 5,
                uses := 0, max_uses := 1 } 5 = "" :=
  (map_style_strict_boundary
    { id := 0, code := "x", user := 0, created := 0, expires := some 5,
      uses := 0, max_uses := 1 } 5).2.2 rfl (by decide)

/-- C7 counterexample: an exhausted record with no expiry and a
time-expired record with uses below the cap receive the same listing
status "expired" at now = 5, not distinct statuses. -/
theorem exhausted_expired_same_style_cex :
    map_style { id := 0, code := "a", user := 0, created := 0, expires := none,
                uses := 1, max_uses := 1 } 5 =
      map_style { id := 1, code := "b", user := 0, created := 0, expires := some 0,
                  uses := 0, max_uses := 1 } 5 ∧
    map_style { id := 0, code := "a", user := 0, created := 0, expires := none,
                uses := 1, max_uses := 1 } 5 = "expired" := by
  decide

/-- C7 (amended): the listing status collapses the two unusability
causes: an exhausted record and a record whose expiry lies strictly
before now are both assigned the single status string "expired". -/
theorem exhausted_and_expired_collapse (a b : InviteCode) (now : Nat)
    (ha : a.max_uses ≤ a.uses) (e : Nat) (hb : b.expires = some e) (he : e < now) :
    map_style a now = "expired" ∧ map_style b now = "expired" ∧
    map_style a now = map_style b now := by
  have h1 : map_style a now = "expired" := by simp [map_style, ha]
  have h2 : map_style b now = "expired" := by
    by_cases h : b.max_uses ≤ b.uses <;> simp [map_style, h, hb, he]
  exact ⟨h1, h2, h1.trans h2.symm⟩

theorem exhausted_and_expired_collapse_app :
    map_style { id := 0, code := "a", user := 0, created := 0, expires := none,
                uses := 2, max_uses := 2 } 9 =
      map_style { id := 1, code := "b", user := 0, created := 0, expires := some 3,
                  uses := 0, max_uses := 2 } 9 :=
  (exhausted_and_expired_collapse
    { id := 0, code := "a", user := 0, created := 0, expires := none,
      uses := 2, max_uses := 2 }
    { id := 1, code := "b", user := 0, created := 0, expires := some 3,
      uses := 0, max_uses := 2 } 9 (by decide) 3 rfl (by decide)).2.2

theorem isValid_uses_lt (c : InviteCode) (now : Nat) (h : isValid c now = true) :
    c.uses < c.max_uses := by
  simp only [isValid, Bool.and_eq_true, decide_eq_true_eq] at h
  exact h.1

/-- C1: every store reachable by the core operations satisfies the cap
invariant: each record's uses counter (a natural, hence non-negative)
is at most its max_uses, so a record created with cap k never has more
than k uses; creation, redemption and the bulk expiration update all
preserve the invariant. -/
theorem reachable_uses_le_max (s : List InviteCode) (h : Reachable s) :
    ∀ r ∈ s, r.uses ≤ r.max_uses := by
  induction h with
  | init => intro r hr; cases hr
  | next s op hs ih =>
    intro r hr
    cases op with
    | create user code max_uses expires created =>
      by_cases hdup : (s.any fun q => q.code = code) = true
      · simp only [apply_op, store_create, if_pos hdup] at hr
        exact ih r hr
      · simp only [apply_op, store_create, if_neg hdup] at hr
        rcases List.mem_append.mp hr with h1 | h1
        · exact ih r h1
        · rw [List.mem_singleton.mp h1]
          exact Nat.zero_le _
    | redeem code now =>
      simp only [apply_op, redeem_step, List.mem_map] at hr
      obtain ⟨q, hq, rfl⟩ := hr
      by_cases hc : q.code = code ∧ isValid q now = true
      · have hlt := isValid_uses_lt q now hc.2
        simp only [if_pos hc]
        omega
      · simp only [if_neg hc]
        exact ih q hq
    | bulk ids expires =>
      simp only [apply_op, update_expires, List.mem_map] at hr
      obtain ⟨q, hq, rfl⟩ := hr
      by_cases hid : q.id ∈ ids
      · simp only [if_pos hid]
        exact ih q hq
      · simp only [if_neg hid]
        exact ih q hq

theorem reachable_uses_le_max_app :
    InviteCode.uses { id := 0, code := "x", user := 1, created := 0, expires := none,
                      uses := 1, max_uses := 1 } ≤
    InviteCode.max_uses { id := 0, code := "x", user := 1, created := 0, expires := none,
                          uses := 1, max_uses := 1 } :=
  reachable_uses_le_max (apply_op (apply_op [] (Op.create 1 "x" 1 none 0)) (Op.redeem "x" 0))
    (Reachable.next _ _ (Reachable.next _ _ Reachable.init))
    { id := 0, code := "x", user := 1, created := 0, expires := none,
      uses := 1, max_uses := 1 }
    (by decide)

/-- C2: the Immediately bulk update writes, to exactly the targeted
records, an expiry value at most now while changing no other field,
leaves every untargeted record untouched, and the single UPDATE
statement is all-or-nothing: a failed transaction writes nothing and a
committed one applies the full update. -/
theorem update_expires_immediately_spec (store : List InviteCode)
    (ids : List Nat) (now : Nat) (tx_ok : Bool) :
    (tx_ok = false → execute_update store ids (some now) tx_ok = none) ∧
    (tx_ok = true →
      execute_update store ids (some now) tx_ok = some (update_expires store ids (some now))) ∧
    (update_expires store ids (some now)).length = store.length ∧
    ∀ i r, store.get? i = some r →
      (r.id ∈ ids → ∃ e, e ≤ now ∧
        (update_expires store ids (some now)).get? i = some { r with expires := some e }) ∧
      (r.id ∉ ids → (update_expires store ids (some now)).get? i = some r) := by
  refine ⟨fun h => by simp [execute_update, h], fun h => by simp [execute_update, h],
    by simp [update_expires], ?_⟩
  intro i r hr
  have hmap : (update_expires store ids (some now)).get? i =
      some (if r.id ∈ ids then { r with expires := some now } else r) := by
    rw [update_expires, List.get?_eq_getElem?, List.getElem?_map,
      ← List.get?_eq_getElem?, hr]
    rfl
  constructor
  · intro hid
    exact ⟨now, Nat.le_refl now, by rw [hmap, if_pos hid]⟩
  · intro hid
    rw [hmap, if_neg hid]

theorem update_expires_immediately_spec_app :
    execute_update [] [] (some 0) false = none ∧
    (update_expires
        [{ id := 4, code := "c", user := 0, created := 0, expires := some 1,
           uses := 0, max_uses := 2 }] [9] (some 7)).get? 0 =
      some { id := 4, code := "c", user := 0, created := 0, expires := some 1,
             uses := 0, max_uses := 2 } :=
  ⟨(update_expires_immediately_spec [] [] 0 false).1 rfl,
   ((update_expires_immediately_spec
       [{ id := 4, code := "c", user := 0, created := 0, expires := some 1,
          uses := 0, max_uses := 2 }] [9] 7 true).2.2.2 0
       { id := 4, code := "c", user := 0, created := 0, expires := some 1,
         uses := 0, max_uses := 2 } rfl).2 (by decide)⟩

/-- C4: at the failing input the update branch with policy "at" and the
submitted timestamp 100 writes the create form's expiry value (none
here) to the targeted record instead of 100: admin.py line 417 reads
form.expires.data, the create form's field, where
update_form.expires.data is the evident intent. -/
theorem at_policy_writes_create_form_expires :
    handle_update_form
        [{ id := 0, code := "k", user := 0, created := 0, expires := some 7,
           uses := 0, max_uses := 3 }] 1
        { etype := "at", expires := some 100, codes := [0] } none 50 =
      some [{ id := 0, code := "k", user := 0, created := 0, expires := none,
              uses := 0, max_uses := 3 }] ∧
    (none : Option Nat) ≠ some 100 := by
  decide

/-- C5: one and the same update submission (selection index 0, expire
now) run against two stores updates records with different ids: the
branch resolves the selection positionally into the listing fetched at
submission time, so which records are updated depends on the listing
contents rather than on stable ids. -/
theorem positional_selection_divergence :
    handle_update_form
        [{ id := 7, code := "a", user := 0, created := 0, expires := none,
           uses := 0, max_uses := 3 }] 1
        { etype := "now", expires := none, codes := [0] } none 50 =
      some [{ id := 7, code := "a", user := 0, created := 0, expires := some 50,
              uses := 0, max_uses := 3 }] ∧
    handle_update_form
        [{ id := 9, code := "b", user := 0, created := 0, expires := none,
           uses := 0, max_uses := 3 }] 1
        { etype := "now", expires := none, codes := [0] } none 50 =
      some [{ id := 9, code := "b", user := 0, created := 0, expires := some 50,
              uses := 0, max_uses := 3 }] ∧
    (7 : Nat) ≠ 9 := by
  decide

/-- C6 counterexample: with the first generated candidate already taken
and the second candidate free, the create branch surfaces DuplicateCode
at once: no bounded retry happens before the failure, contradicting the
claimed retry-then-GenerationExhausted behaviour. -/
theorem no_retry_cex :
    handle_create_form colliding_store blank_code_form colliding_cands 1 0 =
      Except.error StoreError.DuplicateCode ∧
    colliding_store.any (fun r => r.code = generate_code (colliding_cands 1)) = false :=
  ⟨rfl, by decide⟩

/-- C6 (amended): the create branch performs exactly one generation
attempt: its outcome depends only on the first candidate of the random
source, and when that candidate's code already exists the branch fails
with DuplicateCode immediately, with no retry and no GenerationExhausted
outcome. -/
theorem single_attempt_issue (store : List InviteCode)
    (form : CreateInviteCodeForm) (cands cands2 : Nat → Nat → Fin code_alphabet.length)
    (user created : Nat) :
    (cands 0 = cands2 0 →
      handle_create_form store form cands user created =
        handle_create_form store form cands2 user created) ∧
    (form.code = "" → (store.any fun r => r.code = generate_code (cands 0)) = true →
      handle_create_form store form cands user created =
        Except.error StoreError.DuplicateCode) := by
  constructor
  · intro h
    simp [handle_create_form, h]
  · intro hcode hdup
    simp [handle_create_form, store_create, chosen_code, hcode] at hdup ⊢
    simp [hdup]

theorem single_attempt_issue_app :
    handle_create_form colliding_store blank_code_form colliding_cands 2 3 =
      Except.error StoreError.DuplicateCode :=
  (single_attempt_issue colliding_store blank_code_form colliding_cands colliding_cands 2 3).2
    rfl (by decide)

/-- C8 counterexample: an "at" submission with no timestamp is not
rejected with a typed error and does not leave the targeted record
alone: the update succeeds and clears the record's expiry, the never
semantics. -/
theorem at_without_timestamp_cex :
    handle_update_form
        [{ id := 0, code := "k", user := 0, created := 0, expires := some 5,
           uses := 0, max_uses := 3 }] 1
        { etype := "at", expires := none, codes := [0] } (some 99) 50 =
      some [{ id := 0, code := "k", user := 0, created := 0, expires := none,
              uses := 0, max_uses := 3 }] ∧
    some (5 : Nat) ≠ (none : Option Nat) := by
  decide

/-- C8 (amended): a bulk submission with policy "at" and no timestamp
is silently coerced to the never policy: the update branch behaves
exactly as a "never" submission with the same selection, clearing the
targeted records' expiry instead of reporting a typed error. -/
theorem at_without_timestamp_is_never (store : List InviteCode) (page now : Nat)
    (codes : List Nat) (ce : Option Nat) :
    handle_update_form store page
        { etype := "at", expires := none, codes := codes } ce now =
      handle_update_form store page
        { etype := "never", expires := none, codes := codes } ce now := by
  rfl

end Throat
